import Mathlib

/-!
Shallow embedding of `src/data/model_config/models/examples/Example_planar_XY/C/custom_C.c`.

The C file defines five plugin entry points, each of signature
`void f(double* out, double* q, double* q_dot, double* q_ddot, double* W_e)`,
that write a few entries of the caller-allocated output buffer, plus an empty
`mexFunction` hook. We model a `double*` buffer as a total map `Nat → ℚ`
(exact arithmetic; the source only adds, subtracts and multiplies), and each
call as a transformer on a state holding the five buffers reachable through
the call's pointer arguments (assumed non-aliasing, per the host ABI).
-/

/-- A caller-allocated numeric buffer, indexed from 0. -/
def Buf : Type := Nat → ℚ

/-- A single store `b[i] = v` through a pointer. -/
def writeAt (b : Buf) (i : Nat) (v : ℚ) : Buf :=
  fun j => if j = i then v else b j

/-- The memory reachable from one call: the output buffer and the four
input vectors passed by pointer. -/
structure CState where
  out : Buf
  q : Buf
  q_dot : Buf
  q_ddot : Buf
  W_e : Buf

/-- `customCableLengths`: `l[0] = q_dot[0];`. -/
def customCableLengths (s : CState) : CState :=
  { s with out := writeAt s.out 0 (s.q_dot 0) }

/-- `customM`: `M[0] = q[0]; M[1] = q[1]; M[2] = q[2];`. -/
def customM (s : CState) : CState :=
  { s with out :=
      writeAt (writeAt (writeAt s.out 0 (s.q 0)) 1 (s.q 1)) 2 (s.q 2) }

/-- `customC`: `C[i] = q[i]*2 + q_dot[i];` for `i = 0,1,2`. -/
def customC (s : CState) : CState :=
  { s with out :=
      writeAt (writeAt (writeAt s.out 0 (s.q 0 * 2 + s.q_dot 0))
                  1 (s.q 1 * 2 + s.q_dot 1))
              2 (s.q 2 * 2 + s.q_dot 2) }

/-- `customG`: `G[i] = q[i]*3 - q_dot[i];` for `i = 0,1,2`. -/
def customG (s : CState) : CState :=
  { s with out :=
      writeAt (writeAt (writeAt s.out 0 (s.q 0 * 3 - s.q_dot 0))
                  1 (s.q 1 * 3 - s.q_dot 1))
              2 (s.q 2 * 3 - s.q_dot 2) }

/-- `customL`: `L[i] = q[i] * q_dot[i];` for `i = 0,1,2`. -/
def customL (s : CState) : CState :=
  { s with out :=
      writeAt (writeAt (writeAt s.out 0 (s.q 0 * s.q_dot 0))
                  1 (s.q 1 * s.q_dot 1))
              2 (s.q 2 * s.q_dot 2) }

/-- The memory reachable from `mexFunction`: the MATLAB left- and right-hand
side argument arrays. The body of `mexFunction` in the source is empty. -/
structure MexState where
  plhs : Nat → Buf
  prhs : Nat → Buf

/-- `mexFunction(nlhs, plhs, nrhs, prhs)`: empty body. -/
def mexFunction (nlhs : Int) (nrhs : Int) (s : MexState) : MexState :=
  s

/-- The spec's example input `q = [1,2,3]`. -/
def exQ : Buf :=
  fun i => if i = 0 then 1 else if i = 1 then 2 else if i = 2 then 3 else 0

/-- The spec's example input `q_dot = [4,5,6]`. -/
def exQdot : Buf :=
  fun i => if i = 0 then 4 else if i = 1 then 5 else if i = 2 then 6 else 0

/-- A zero-initialised buffer. -/
def zeroBuf : Buf := fun _ => 0

/-- The call state for the spec's example: `q = [1,2,3]`, `q_dot = [4,5,6]`,
everything else zeroed. -/
def exState : CState :=
  ⟨zeroBuf, exQ, exQdot, zeroBuf, zeroBuf⟩

/-- C1: for every input, `customM` writes `output[i] = q[i]` for `i < 3`;
in particular on `q = [1,2,3]` the written entries are `[1,2,3]`. -/
theorem customM_writes_q :
    (∀ s : CState, ∀ i : Nat, i < 3 → (customM s).out i = s.q i) ∧
    ((customM exState).out 0 = 1 ∧ (customM exState).out 1 = 2 ∧
      (customM exState).out 2 = 3) := by
  constructor
  · intro s i h
    interval_cases i <;> simp [customM, writeAt]
  · refine ⟨?_, ?_, ?_⟩ <;> rfl

/-- Witness for C1 at the example state and index 1. -/
theorem customM_writes_q_witness :
    (1 : Nat) < 3 ∧ (customM exState).out 1 = exState.q 1 :=
  ⟨by decide, customM_writes_q.1 exState 1 (by decide)⟩

/-- C2: for every input, `customC` writes `output[i] = 2*q[i] + q_dot[i]`
for `i < 3`; on the example the written entries are `[6,9,12]`. -/
theorem customC_writes_combo :
    (∀ s : CState, ∀ i : Nat, i < 3 →
      (customC s).out i = 2 * s.q i + s.q_dot i) ∧
    ((customC exState).out 0 = 6 ∧ (customC exState).out 1 = 9 ∧
      (customC exState).out 2 = 12) := by
  constructor
  · intro s i h
    interval_cases i <;> simp [customC, writeAt] <;> ring
  · refine ⟨?_, ?_, ?_⟩ <;> norm_num [customC, writeAt, exState, exQ, exQdot]

/-- Witness for C2 at the example state and index 1. -/
theorem customC_writes_combo_witness :
    (1 : Nat) < 3 ∧ (customC exState).out 1 = 2 * exState.q 1 + exState.q_dot 1 :=
  ⟨by decide, customC_writes_combo.1 exState 1 (by decide)⟩

/-- C3: for every input, `customG` writes `output[i] = 3*q[i] - q_dot[i]`
for `i < 3`; on the example the written entries are `[-1,1,3]`. -/
theorem customG_writes_combo :
    (∀ s : CState, ∀ i : Nat, i < 3 →
      (customG s).out i = 3 * s.q i - s.q_dot i) ∧
    ((customG exState).out 0 = -1 ∧ (customG exState).out 1 = 1 ∧
      (customG exState).out 2 = 3) := by
  constructor
  · intro s i h
    interval_cases i <;> simp [customG, writeAt] <;> ring
  · refine ⟨?_, ?_, ?_⟩ <;> norm_num [customG, writeAt, exState, exQ, exQdot]

/-- Witness for C3 at the example state and index 1. -/
theorem customG_writes_combo_witness :
    (1 : Nat) < 3 ∧ (customG exState).out 1 = 3 * exState.q 1 - exState.q_dot 1 :=
  ⟨by decide, customG_writes_combo.1 exState 1 (by decide)⟩

/-- C4: for every input, `customL` writes `output[i] = q[i] * q_dot[i]`
for `i < 3`; on the example the written entries are `[4,10,18]`. -/
theorem customL_writes_product :
    (∀ s : CState, ∀ i : Nat, i < 3 →
      (customL s).out i = s.q i * s.q_dot i) ∧
    ((customL exState).out 0 = 4 ∧ (customL exState).out 1 = 10 ∧
      (customL exState).out 2 = 18) := by
  constructor
  · intro s i h
    interval_cases i <;> simp [customL, writeAt]
  · refine ⟨?_, ?_, ?_⟩ <;> norm_num [customL, writeAt, exState, exQ, exQdot]

/-- Witness for C4 at the example state and index 1. -/
theorem customL_writes_product_witness :
    (1 : Nat) < 3 ∧ (customL exState).out 1 = exState.q 1 * exState.q_dot 1 :=
  ⟨by decide, customL_writes_product.1 exState 1 (by decide)⟩

/-- The example call state with the output buffer pre-filled with 7 instead
of zero: used to show results do not depend on the output prestate. -/
def exState2 : CState :=
  ⟨fun _ => 7, exQ, exQdot, zeroBuf, zeroBuf⟩

/-- The example call state with nonzero `q_ddot` and `W_e`: used to show
results do not depend on those inputs. -/
def exStateB : CState :=
  ⟨zeroBuf, exQ, exQdot, fun _ => 9, fun _ => 5⟩

/-- C5: `customCableLengths` writes `output[0] = q_dot[0]` and leaves every
other entry of the output buffer unchanged. -/
theorem customCableLengths_spec :
    ∀ s : CState, (customCableLengths s).out 0 = s.q_dot 0 ∧
      ∀ i : Nat, i ≠ 0 → (customCableLengths s).out i = s.out i := by
  intro s
  refine ⟨rfl, ?_⟩
  intro i h
  simp [customCableLengths, writeAt, h]

/-- Witness for C5 at the example state and index 1. -/
theorem customCableLengths_spec_witness :
    (customCableLengths exState).out 0 = exState.q_dot 0 ∧
      (1 : Nat) ≠ 0 ∧ (customCableLengths exState).out 1 = exState.out 1 :=
  ⟨(customCableLengths_spec exState).1, by decide,
    (customCableLengths_spec exState).2 1 (by decide)⟩

/-- C6: each of the five entry points leaves the input vectors `q`, `q_dot`,
`q_ddot`, `W_e` unchanged; the call state holds nothing besides these and the
output buffer, so nothing other than the output buffer is touched. -/
theorem entry_points_preserve_inputs :
    ∀ s : CState,
      ((customCableLengths s).q = s.q ∧ (customCableLengths s).q_dot = s.q_dot ∧
        (customCableLengths s).q_ddot = s.q_ddot ∧ (customCableLengths s).W_e = s.W_e) ∧
      ((customM s).q = s.q ∧ (customM s).q_dot = s.q_dot ∧
        (customM s).q_ddot = s.q_ddot ∧ (customM s).W_e = s.W_e) ∧
      ((customC s).q = s.q ∧ (customC s).q_dot = s.q_dot ∧
        (customC s).q_ddot = s.q_ddot ∧ (customC s).W_e = s.W_e) ∧
      ((customG s).q = s.q ∧ (customG s).q_dot = s.q_dot ∧
        (customG s).q_ddot = s.q_ddot ∧ (customG s).W_e = s.W_e) ∧
      ((customL s).q = s.q ∧ (customL s).q_dot = s.q_dot ∧
        (customL s).q_ddot = s.q_ddot ∧ (customL s).W_e = s.W_e) :=
  fun _ => ⟨⟨rfl, rfl, rfl, rfl⟩, ⟨rfl, rfl, rfl, rfl⟩, ⟨rfl, rfl, rfl, rfl⟩,
    ⟨rfl, rfl, rfl, rfl⟩, ⟨rfl, rfl, rfl, rfl⟩⟩

/-- C7: `mexFunction` has an empty body: for every arguments it returns the
state unchanged, writing nothing and producing no output. -/
theorem mexFunction_noop :
    ∀ (nlhs nrhs : Int) (s : MexState), mexFunction nlhs nrhs s = s :=
  fun _ _ _ => rfl

/-- C8: the five entry points are stateless and deterministic: two calls
with equal input vectors write equal values into the output buffer, whatever
the prior contents of the output buffer (hence independently of prior calls). -/
theorem entry_points_deterministic :
    ∀ s1 s2 : CState, s1.q = s2.q → s1.q_dot = s2.q_dot →
      s1.q_ddot = s2.q_ddot → s1.W_e = s2.W_e →
      ((customCableLengths s1).out 0 = (customCableLengths s2).out 0) ∧
      (∀ i : Nat, i < 3 → (customM s1).out i = (customM s2).out i) ∧
      (∀ i : Nat, i < 3 → (customC s1).out i = (customC s2).out i) ∧
      (∀ i : Nat, i < 3 → (customG s1).out i = (customG s2).out i) ∧
      (∀ i : Nat, i < 3 → (customL s1).out i = (customL s2).out i) := by
  intro s1 s2 hq hqd hqdd hwe
  refine ⟨?_, ?_, ?_, ?_, ?_⟩
  · simp [customCableLengths, writeAt, hqd]
  · intro i h; interval_cases i <;> simp [customM, writeAt, hq]
  · intro i h; interval_cases i <;> simp [customC, writeAt, hq, hqd]
  · intro i h; interval_cases i <;> simp [customG, writeAt, hq, hqd]
  · intro i h; interval_cases i <;> simp [customL, writeAt, hq, hqd]

/-- Witness for C8: two example states with equal inputs but different
output prestates yield the same written value. -/
theorem entry_points_deterministic_witness :
    exState.q = exState2.q ∧ exState.q_dot = exState2.q_dot ∧
      exState.q_ddot = exState2.q_ddot ∧ exState.W_e = exState2.W_e ∧
      (customM exState).out 1 = (customM exState2).out 1 :=
  ⟨rfl, rfl, rfl, rfl,
    (entry_points_deterministic exState exState2 rfl rfl rfl rfl).2.1 1 (by decide)⟩

/-- C9: the entire output buffer after any of the five calls is independent
of `q_ddot` and `W_e`: two states agreeing on the output prestate, `q` and
`q_dot` yield identical output buffers. -/
theorem entry_points_ignore_qddot_we :
    ∀ s1 s2 : CState, s1.out = s2.out → s1.q = s2.q → s1.q_dot = s2.q_dot →
      (customCableLengths s1).out = (customCableLengths s2).out ∧
      (customM s1).out = (customM s2).out ∧
      (customC s1).out = (customC s2).out ∧
      (customG s1).out = (customG s2).out ∧
      (customL s1).out = (customL s2).out := by
  intro s1 s2 ho hq hqd
  refine ⟨?_, ?_, ?_, ?_, ?_⟩
  · simp [customCableLengths, ho, hqd]
  · simp [customM, ho, hq]
  · simp [customC, ho, hq, hqd]
  · simp [customG, ho, hq, hqd]
  · simp [customL, ho, hq, hqd]

/-- Witness for C9: the example state and its variant with nonzero `q_ddot`
and `W_e` yield identical `customG` output buffers. -/
theorem entry_points_ignore_qddot_we_witness :
    exState.out = exStateB.out ∧ exState.q = exStateB.q ∧
      exState.q_dot = exStateB.q_dot ∧
      (customG exState).out = (customG exStateB).out :=
  ⟨rfl, rfl, rfl,
    (entry_points_ignore_qddot_we exState exStateB rfl rfl rfl).2.2.2.1⟩

/-- C10: `customM`, `customC`, `customG` and `customL` write only indices
0, 1 and 2; every output-buffer entry at index 3 or above is unchanged. -/
theorem entry_points_frame_high :
    ∀ (s : CState) (i : Nat), 3 ≤ i →
      (customM s).out i = s.out i ∧ (customC s).out i = s.out i ∧
      (customG s).out i = s.out i ∧ (customL s).out i = s.out i := by
  intro s i h
  have h0 : i ≠ 0 := by omega
  have h1 : i ≠ 1 := by omega
  have h2 : i ≠ 2 := by omega
  refine ⟨?_, ?_, ?_, ?_⟩ <;>
    simp [customM, customC, customG, customL, writeAt, h0, h1, h2]

/-- Witness for C10 at the example state and index 5. -/
theorem entry_points_frame_high_witness :
    (3 : Nat) ≤ 5 ∧
      ((customM exState).out 5 = exState.out 5 ∧
        (customC exState).out 5 = exState.out 5 ∧
        (customG exState).out 5 = exState.out 5 ∧
        (customL exState).out 5 = exState.out 5) :=
  ⟨by decide, entry_points_frame_high exState 5 (by decide)⟩
